import Mathlib

/-!
Verification of the reshape migration actions (`CreateTable`, `RemoveColumn`)
against their natural-language specification.

The two action source files (`src/migrations/create_table.rs`,
`src/migrations/remove_column.rs`) are embedded directly.  The schema model
(`crate::schema`) and the executor capability (`crate::db::Conn`) are not part
of the provided sources; where a definition stands in for them it carries a
doc comment starting with `Modelled from the spec:` and follows the spec text.
-/

/-- Errors of the logical schema model (spec section 7):
`NotFound` — referenced table/column absent from the logical model;
`Conflict` — table name already present. -/
inductive SchemaError where
  | NotFound
  | Conflict
deriving DecidableEq, Repr

/-- Errors surfaced by an action call: a schema-model error propagated from
`find_table`, or an `ExecutionError` (a statement rejected by the store). -/
inductive RunError where
  | schemaErr (e : SchemaError)
  | execution
deriving DecidableEq, Repr

/-- `crate::schema::Column`: logical column of a `Table`
(fields as constructed in `CreateTable::update_schema`). -/
structure Schema.Column where
  name : String
  real_name : Option String
  data_type : String
  nullable : Bool
deriving DecidableEq, Repr

/-- `crate::schema::Table`: name, ordered columns, ordered primary-key names. -/
structure Table where
  name : String
  columns : List Schema.Column
  primary_key : List String
deriving DecidableEq, Repr

/-- `crate::schema::Schema`: in-memory mapping of table name to `Table`,
kept as the ordered list of tables. -/
structure Schema where
  tables : List Table
deriving DecidableEq, Repr

/-- Modelled from the spec: `Table::new(name)` (schema.rs is not in the
provided sources) — a fresh table with no columns and no primary key. -/
def Table.new (name : String) : Table :=
  { name := name, columns := [], primary_key := [] }

/-- Modelled from the spec: `Table::add_column` (schema.rs is not in the
provided sources) — append the column to the table's ordered column list. -/
def Table.add_column (t : Table) (c : Schema.Column) : Table :=
  { t with columns := t.columns ++ [c] }

/-- Modelled from the spec: `Table::remove_column(name)` (schema.rs is not in
the provided sources) — "NotFound if absent, else remove". -/
def Table.remove_column (t : Table) (c : String) : Except SchemaError Table :=
  if t.columns.any (fun col => col.name == c) then
    .ok { t with columns := t.columns.filter (fun col => col.name != c) }
  else
    .error SchemaError.NotFound

/-- Modelled from the spec: `Schema::find_table(name)` (schema.rs is not in
the provided sources) — "Table or NotFound". -/
def Schema.find_table (schema : Schema) (name : String) : Except SchemaError Table :=
  match schema.tables.find? (fun t => t.name == name) with
  | some t => .ok t
  | none => .error SchemaError.NotFound

/-- Modelled from the spec: `Schema::add_table(table)` (schema.rs is not in
the provided sources) — "Conflict if name present, else insert". -/
def Schema.add_table (schema : Schema) (t : Table) : Except SchemaError Schema :=
  if schema.tables.any (fun t2 => t2.name == t.name) then
    .error SchemaError.Conflict
  else
    .ok { tables := schema.tables ++ [t] }

/-- Modelled from the spec: `Schema::find_table_mut(name)` followed by an
in-place mutation of the found table (schema.rs is not in the provided
sources) — locate the first table of that name and replace it by `f` of it,
`none` when no table of that name exists (NotFound). -/
def Schema.modifyTable (f : Table → Table) (name : String) :
    List Table → Option (List Table)
  | [] => none
  | t :: rest =>
    if t.name == name then some (f t :: rest)
    else (Schema.modifyTable f name rest).map (fun l => t :: l)

/-- `migrations::Column`: the column description carried by a `CreateTable`
action (name, data type, nullability, optional default literal). -/
structure Column where
  name : String
  data_type : String
  nullable : Bool
  default : Option String
deriving DecidableEq, Repr

/-- `ForeignKey` description carried by a `CreateTable` action. -/
structure ForeignKey where
  columns : List String
  referenced_table : String
  referenced_columns : List String
deriving DecidableEq, Repr

/-- The `CreateTable` action record. -/
structure CreateTable where
  name : String
  columns : List Column
  primary_key : List String
  foreign_keys : List ForeignKey
deriving DecidableEq, Repr

/-- The `RemoveColumn` action record. -/
structure RemoveColumn where
  table : String
  column : String
  down : Option String
deriving DecidableEq, Repr

/-- `RemoveColumn::trigger_name`: the deterministic compensating-object name
`format!("remove_column_{}_{}", self.table, self.column)`. -/
def RemoveColumn.trigger_name (a : RemoveColumn) : String :=
  "remove_column_" ++ a.table ++ "_" ++ a.column

/-- One column definition row of `CreateTable::run`: the `parts` vector
(name, type, then `DEFAULT <literal>` when a default is given, then
`NOT NULL` when not nullable) joined with a single space. -/
def columnDefinition (column : Column) : String :=
  let parts := [column.name, column.data_type]
  let parts :=
    match column.default with
    | some d => parts ++ ["DEFAULT", d]
    | none => parts
  let parts := if !column.nullable then parts ++ ["NOT NULL"] else parts
  String.intercalate " " parts

/-- The `FOREIGN KEY` definition row pushed for one `ForeignKey` in
`CreateTable::run`. -/
def foreignKeyClause (fk : ForeignKey) : String :=
  "FOREIGN KEY (" ++ String.intercalate ", " fk.columns ++ ") REFERENCES "
    ++ fk.referenced_table ++ " (" ++ String.intercalate ", " fk.referenced_columns ++ ")"

/-- The single SQL string passed to `db.run` by `CreateTable::run`:
definition rows (columns, then the `PRIMARY KEY` row, then one
`FOREIGN KEY` row per foreign key) joined with `",\n"` and wrapped in
`CREATE TABLE <name> ( ... )` exactly as in the source format string. -/
def CreateTable.runQuery (a : CreateTable) : String :=
  let definition_rows := a.columns.map columnDefinition
  let primary_key_columns := String.intercalate ", " a.primary_key
  let definition_rows :=
    definition_rows ++ ["PRIMARY KEY (" ++ primary_key_columns ++ ")"]
  let definition_rows := definition_rows ++ a.foreign_keys.map foreignKeyClause
  "CREATE TABLE " ++ a.name ++ " (\n                "
    ++ String.intercalate ",\n" definition_rows ++ "\n            )"

/-- `CreateTable::run` makes exactly one `db.run` call, with `runQuery`. -/
def CreateTable.runQueries (a : CreateTable) : List String :=
  [a.runQuery]

/-- `CreateTable::update_schema`: build a table via `Table::new`, set its
primary key, `add_column` each declared column in order, then call
`schema.add_table(table)`.  The source discards `add_table`'s result
(the statement `schema.add_table(table);` carries no `?`), so a `Conflict`
leaves the schema unchanged and the function still returns `Ok(())`. -/
def CreateTable.update_schema (a : CreateTable) (schema : Schema) :
    Except SchemaError Schema :=
  let table := Table.new a.name
  let table := { table with primary_key := a.primary_key }
  let table := a.columns.foldl
    (fun t column => t.add_column
      { name := column.name, real_name := none,
        data_type := column.data_type, nullable := column.nullable })
    table
  .ok (match schema.add_table table with
    | .ok schema2 => schema2
    | .error _ => schema)

/-- `RemoveColumn::update_schema`: `find_table_mut(self.table)?`, then
`table.remove_column(self.column)` with its result discarded (the statement
carries no `?`), so a column-level `NotFound` leaves the table unchanged and
the function still returns `Ok(())`. -/
def RemoveColumn.update_schema (a : RemoveColumn) (schema : Schema) :
    Except SchemaError Schema :=
  match Schema.modifyTable
      (fun t => match t.remove_column a.column with
        | .ok t2 => t2
        | .error _ => t)
      a.table schema.tables with
  | none => .error SchemaError.NotFound
  | some tables => .ok { tables := tables }

/-- The shape of one DDL statement an action sends through the executor.
Each constructor corresponds to one statement of the SQL strings built in
`CreateTable::run`/`abort` and `RemoveColumn::run`/`complete`/`abort`. -/
inductive Stmt where
  | createTable (name : String) (columns : List String)
  | dropTableIfExists (name : String)
  | createOrReplaceFunction (name : String)
  | dropTriggerIfExists (name : String) (table : String)
  | createTrigger (name : String) (table : String)
  | alterTableDropColumn (table : String) (column : String)
  | dropFunctionIfExists (name : String)
deriving DecidableEq, Repr

/-- Modelled from the spec: the physical store behind `crate::db::Conn`
(db.rs is not in the provided sources) — tables with their physical column
names, triggers (as name-table pairs, a trigger belonging to one table) and
procedures (functions) by name. -/
structure Store where
  tables : List (String × List String)
  triggers : List (String × String)
  functions : List String
deriving DecidableEq, Repr

/-- Modelled from the spec: effect of one statement on the store, `none` on
an `ExecutionError` ("statement rejected by the store").  `CREATE` of an
existing object and dropping an absent column/table are rejections;
`CREATE OR REPLACE` and `DROP ... IF EXISTS` always succeed
("create-or-replace, drop-if-exists"). -/
def applyStmt (s : Store) : Stmt → Option Store
  | .createTable n cols =>
    if s.tables.any (fun p => p.1 == n) then none
    else some { s with tables := s.tables ++ [(n, cols)] }
  | .dropTableIfExists n =>
    some { s with tables := s.tables.filter (fun p => p.1 != n),
                  triggers := s.triggers.filter (fun p => p.2 != n) }
  | .createOrReplaceFunction n =>
    some { s with functions :=
      if s.functions.contains n then s.functions else s.functions ++ [n] }
  | .dropTriggerIfExists n t =>
    some { s with triggers := s.triggers.filter (fun p => p != (n, t)) }
  | .createTrigger n t =>
    if s.triggers.contains (n, t) then none
    else some { s with triggers := s.triggers ++ [(n, t)] }
  | .alterTableDropColumn t c =>
    match s.tables.find? (fun p => p.1 == t) with
    | none => none
    | some p =>
      if p.2.contains c then
        some { s with tables := (s.tables.map
          (fun q => if q.1 == t then (q.1, q.2.filter (fun c2 => c2 != c)) else q)) }
      else none
  | .dropFunctionIfExists n =>
    some { s with functions := s.functions.filter (fun f => f != n) }

/-- Modelled from the spec: running a list of statements against the store,
stopping at the first rejected statement, which surfaces as an
`ExecutionError`; the state reached so far is kept. -/
def applyStmts (s : Store) : List Stmt → Store × Option RunError
  | [] => (s, none)
  | st :: rest =>
    match applyStmt s st with
    | some s2 => applyStmts s2 rest
    | none => (s, some RunError.execution)

/-- `CreateTable::run`, store view: the single `CREATE TABLE` statement,
creating the physical table with the declared column names. -/
def CreateTable.runStore (a : CreateTable) (s : Store) : Store × Option RunError :=
  applyStmts s [Stmt.createTable a.name (a.columns.map (fun c => c.name))]

/-- `CreateTable::abort`, store view: `DROP TABLE IF EXISTS <name>`. -/
def CreateTable.abortStore (a : CreateTable) (s : Store) : Store × Option RunError :=
  applyStmts s [Stmt.dropTableIfExists a.name]

/-- The statements `RemoveColumn::run` sends: nothing when `down` is `None`;
otherwise `find_table(self.table)?` first (its `NotFound` propagates before
any statement is built), then one `db.run` batch of
`CREATE OR REPLACE FUNCTION`, `DROP TRIGGER IF EXISTS`, `CREATE TRIGGER`. -/
def RemoveColumn.runStatements (a : RemoveColumn) (schema : Schema) :
    Except SchemaError (List Stmt) :=
  match a.down with
  | none => .ok []
  | some _ =>
    match schema.find_table a.table with
    | .error e => .error e
    | .ok _ =>
      .ok [Stmt.createOrReplaceFunction a.trigger_name,
           Stmt.dropTriggerIfExists a.trigger_name a.table,
           Stmt.createTrigger a.trigger_name a.table]

/-- `RemoveColumn::run`, store view: a schema `NotFound` propagates with the
store untouched; otherwise the generated statements are executed. -/
def RemoveColumn.runStore (a : RemoveColumn) (schema : Schema) (s : Store) :
    Store × Option RunError :=
  match a.runStatements schema with
  | .error e => (s, some (RunError.schemaErr e))
  | .ok stmts => applyStmts s stmts

/-- `RemoveColumn::complete`, store view: one `db.run` batch of
`ALTER TABLE <table> DROP COLUMN <column>` (no `IF EXISTS` on the column),
then `DROP TRIGGER IF EXISTS`, then `DROP FUNCTION IF EXISTS`. -/
def RemoveColumn.completeStore (a : RemoveColumn) (s : Store) :
    Store × Option RunError :=
  applyStmts s
    [Stmt.alterTableDropColumn a.table a.column,
     Stmt.dropTriggerIfExists a.trigger_name a.table,
     Stmt.dropFunctionIfExists a.trigger_name]

/-- `RemoveColumn::abort`, store view: `DROP TRIGGER IF EXISTS` then
`DROP FUNCTION IF EXISTS` (sent through `query`, which the spec reserves for
classifying "does not exist" outcomes as non-fatal). -/
def RemoveColumn.abortStore (a : RemoveColumn) (s : Store) :
    Store × Option RunError :=
  applyStmts s
    [Stmt.dropTriggerIfExists a.trigger_name a.table,
     Stmt.dropFunctionIfExists a.trigger_name]

/-- `run` applied `n` times in sequence (keeping the store component). -/
def RemoveColumn.iterateRun (a : RemoveColumn) (schema : Schema) :
    Nat → Store → Store
  | 0, s => s
  | n + 1, s => a.iterateRun schema n (a.runStore schema s).1

/-- Whether the store holds a table of the given name. -/
def Store.hasTable (s : Store) (n : String) : Bool :=
  s.tables.any (fun p => p.1 == n)

/-- Whether the store holds the given trigger on the given table. -/
def Store.hasTrigger (s : Store) (n t : String) : Bool :=
  s.triggers.contains (n, t)

/-- Whether the store holds a function of the given name. -/
def Store.hasFunction (s : Store) (n : String) : Bool :=
  s.functions.contains n

/-- Whether some table of the given name physically holds the column. -/
def Store.columnExists (s : Store) (t c : String) : Bool :=
  s.tables.any (fun p => p.1 == t && p.2.contains c)

/-- Number of copies of the given trigger in the store. -/
def Store.triggerCount (s : Store) (n t : String) : Nat :=
  s.triggers.count (n, t)

/-- Number of copies of the given function in the store. -/
def Store.functionCount (s : Store) (n : String) : Nat :=
  s.functions.count n

/-! ## Helper lemmas -/

theorem contains_filter_ne {α : Type} [BEq α] [LawfulBEq α] (l : List α) (x : α) :
    (l.filter (fun p => p != x)).contains x = false := by
  rw [Bool.eq_false_iff]
  intro h
  have h2 := List.elem_iff.mp h
  have h3 := List.mem_filter.mp h2
  simp at h3

theorem any_filter_fst_ne {α : Type} (f : α → String) (n : String) (l : List α) :
    (l.filter (fun p => f p != n)).any (fun p => f p == n) = false := by
  rw [Bool.eq_false_iff]
  intro h
  obtain ⟨p, hp, hpred⟩ := List.any_eq_true.mp h
  have h3 := List.mem_filter.mp hp
  simp at h3 hpred
  exact h3.2 hpred

theorem filter_ne_append_self {α : Type} [BEq α] [LawfulBEq α] (l : List α) (x : α) :
    (l.filter (fun p => p != x) ++ [x]).filter (fun p => p != x)
      = l.filter (fun p => p != x) := by
  rw [List.filter_append]
  simp [List.filter_filter]

theorem columnExists_dropColumn (l : List (String × List String)) (t c : String) :
    (l.map (fun q => if q.1 == t then (q.1, q.2.filter (fun c2 => c2 != c)) else q)).any
      (fun p => p.1 == t && p.2.contains c) = false := by
  induction l with
  | nil => rfl
  | cons q l ih =>
    by_cases h : q.1 = t
    · simp only [List.map_cons, List.any_cons, h, beq_self_eq_true, if_true, ih,
        Bool.or_false]
      simp [contains_filter_ne]
    · simp only [List.map_cons, List.any_cons, ih, Bool.or_false]
      simp [h]

theorem find?_dropColumn (l : List (String × List String)) (t c : String)
    (cols : List String) (h : l.find? (fun p => p.1 == t) = some (t, cols)) :
    (l.map (fun q => if q.1 == t then (q.1, q.2.filter (fun c2 => c2 != c)) else q)).find?
      (fun p => p.1 == t) = some (t, cols.filter (fun c2 => c2 != c)) := by
  induction l with
  | nil => simp at h
  | cons q l ih =>
    by_cases hq : q.1 = t
    · rw [List.find?_cons_of_pos _ (by simp [hq])] at h
      have hq2 : q = (t, cols) := Option.some.inj h
      subst hq2
      simp only [List.map_cons, beq_self_eq_true, if_true]
      rw [List.find?_cons_of_pos _ (by simp)]
    · rw [List.find?_cons_of_neg _ (by simp [hq])] at h
      simp only [List.map_cons, if_neg (by simp [hq] : ¬(q.1 == t) = true)]
      rw [List.find?_cons_of_neg _ (by simp [hq])]
      exact ih h

theorem foldl_add_column (cols : List Column) (t : Table) :
    cols.foldl
      (fun t column => t.add_column
        { name := column.name, real_name := none,
          data_type := column.data_type, nullable := column.nullable })
      t
    = { t with columns := t.columns ++ cols.map (fun column =>
          { name := column.name, real_name := none,
            data_type := column.data_type, nullable := column.nullable }) } := by
  induction cols generalizing t with
  | nil => simp
  | cons c cols ih =>
    rw [List.foldl_cons, ih]
    simp [Table.add_column, List.append_assoc]

theorem modifyTable_of_find?_none (f : Table → Table) (n : String) (l : List Table)
    (h : l.find? (fun t => t.name == n) = none) :
    Schema.modifyTable f n l = none := by
  induction l with
  | nil => rfl
  | cons t l ih =>
    rw [List.find?_cons] at h
    unfold Schema.modifyTable
    rcases hq : (t.name == n) with _ | _
    · simp only [hq] at h
      simp [ih h]
    · simp [hq] at h

theorem modifyTable_of_fix (f : Table → Table) (n : String) (l : List Table)
    (tbl : Table) (h : l.find? (fun t => t.name == n) = some tbl)
    (hfix : f tbl = tbl) :
    Schema.modifyTable f n l = some l := by
  induction l with
  | nil => simp at h
  | cons t l ih =>
    rw [List.find?_cons] at h
    unfold Schema.modifyTable
    rcases hq : (t.name == n) with _ | _
    · simp only [hq] at h
      simp [hq, ih h]
    · simp only [hq] at h
      have ht : t = tbl := Option.some.inj h
      subst ht
      simp [hq, hfix]

theorem RemoveColumn.abortStore_eq (a : RemoveColumn) (s : Store) :
    a.abortStore s =
      ({ tables := s.tables,
         triggers := s.triggers.filter (fun p => p != (a.trigger_name, a.table)),
         functions := s.functions.filter (fun f => f != a.trigger_name) }, none) := by
  simp [RemoveColumn.abortStore, applyStmts, applyStmt]

theorem RemoveColumn.runStore_ok (a : RemoveColumn) (sc : Schema) (s : Store)
    (d : String) (tbl : Table)
    (hd : a.down = some d) (hf : sc.find_table a.table = .ok tbl) :
    a.runStore sc s =
      ({ tables := s.tables,
         triggers := s.triggers.filter (fun p => p != (a.trigger_name, a.table))
           ++ [(a.trigger_name, a.table)],
         functions := if s.functions.contains a.trigger_name then s.functions
           else s.functions ++ [a.trigger_name] }, none) := by
  unfold RemoveColumn.runStore RemoveColumn.runStatements
  rw [hd, hf]
  simp [applyStmts, applyStmt, contains_filter_ne]

theorem RemoveColumn.runStore_tables (a : RemoveColumn) (sc : Schema) (s : Store) :
    ((a.runStore sc s).1).tables = s.tables := by
  unfold RemoveColumn.runStore RemoveColumn.runStatements
  rcases hd : a.down with _ | d
  · simp [applyStmts]
  · rcases hf : sc.find_table a.table with e | tbl
    · simp [hf]
    · simp [hf, applyStmts, applyStmt, contains_filter_ne]

theorem RemoveColumn.iterateRun_tables (a : RemoveColumn) (sc : Schema)
    (n : Nat) (s : Store) :
    (a.iterateRun sc n s).tables = s.tables := by
  induction n generalizing s with
  | zero => rfl
  | succ n ih =>
    rw [RemoveColumn.iterateRun, ih, RemoveColumn.runStore_tables]

theorem RemoveColumn.completeStore_ok (a : RemoveColumn) (s : Store)
    (cols : List String)
    (hfind : s.tables.find? (fun p => p.1 == a.table) = some (a.table, cols))
    (hc : cols.contains a.column = true) :
    a.completeStore s =
      ({ tables := (s.tables.map (fun q =>
           if q.1 == a.table then (q.1, q.2.filter (fun c2 => c2 != a.column)) else q)),
         triggers := s.triggers.filter (fun p => p != (a.trigger_name, a.table)),
         functions := s.functions.filter (fun f => f != a.trigger_name) }, none) := by
  have hc2 : a.column ∈ cols := List.elem_iff.mp hc
  simp [RemoveColumn.completeStore, applyStmts, applyStmt, hfind, hc2]

theorem RemoveColumn.completeStore_absent (a : RemoveColumn) (s : Store)
    (cols : List String)
    (hfind : s.tables.find? (fun p => p.1 == a.table) = some (a.table, cols))
    (hc : cols.contains a.column = false) :
    a.completeStore s = (s, some RunError.execution) := by
  have hc2 : ¬ a.column ∈ cols := by simpa using hc
  simp [RemoveColumn.completeStore, applyStmts, applyStmt, hfind, hc2]

/-! ## Claim theorems -/

/-- C2: `CreateTable::run` emits exactly one CREATE statement whose body is
one definition line per declared column in order (name, then type, then
`DEFAULT <literal>` when a default is given, then `NOT NULL` when not
nullable), exactly one `PRIMARY KEY` clause listing the primary-key columns
in order, and one `FOREIGN KEY` clause per declared foreign key, all joined
into that single statement. -/
theorem createTable_run_statement_shape (a : CreateTable) :
    a.runQueries = ["CREATE TABLE " ++ a.name ++ " (\n                "
        ++ String.intercalate ",\n"
          (a.columns.map columnDefinition
            ++ ["PRIMARY KEY (" ++ String.intercalate ", " a.primary_key ++ ")"]
            ++ a.foreign_keys.map foreignKeyClause)
        ++ "\n            )"]
    ∧ (∀ c : Column, columnDefinition c =
        c.name ++ " " ++ c.data_type
          ++ (match c.default with | some d => " DEFAULT " ++ d | none => "")
          ++ (if c.nullable then "" else " NOT NULL"))
    ∧ (∀ fk : ForeignKey, foreignKeyClause fk =
        "FOREIGN KEY (" ++ String.intercalate ", " fk.columns ++ ") REFERENCES "
          ++ fk.referenced_table ++ " ("
          ++ String.intercalate ", " fk.referenced_columns ++ ")") := by
  refine ⟨?_, ?_, fun fk => rfl⟩
  · simp [CreateTable.runQueries, CreateTable.runQuery, List.append_assoc]
  · intro c
    unfold columnDefinition
    rcases c with ⟨n, dt, nl, df⟩
    cases df <;> cases nl <;>
      simp [String.intercalate, String.intercalate.go, String.append_assoc]

/-- C8 counterexample: the derived compensating-object name is not injective
on (table, column) pairs — two distinct pairs yield the same name. -/
theorem trigger_name_collision_cex :
    RemoveColumn.trigger_name (RemoveColumn.mk "users_a" "b" none)
      = RemoveColumn.trigger_name (RemoveColumn.mk "users" "a_b" none)
    ∧ (RemoveColumn.mk "users_a" "b" none) ≠ (RemoveColumn.mk "users" "a_b" none) := by
  exact ⟨rfl, by decide⟩

/-- C8 (amended): the compensating-object name is a deterministic function
of the (table, column) pair, and for a fixed table distinct columns give
distinct names; full injectivity over all pairs fails when identifiers
contain underscores (see the counterexample). -/
theorem trigger_name_deterministic_amended (a b : RemoveColumn)
    (ht : a.table = b.table) :
    (a.column = b.column → a.trigger_name = b.trigger_name) ∧
    (a.column ≠ b.column → a.trigger_name ≠ b.trigger_name) := by
  constructor
  · intro hc
    unfold RemoveColumn.trigger_name
    rw [ht, hc]
  · intro hc hn
    unfold RemoveColumn.trigger_name at hn
    rw [ht] at hn
    apply hc
    have h2 := congrArg String.data hn
    simp [String.data_append] at h2
    exact String.ext h2

/-- C8 witness for the amended theorem at concrete inputs. -/
theorem trigger_name_deterministic_amended_witness :
    ((RemoveColumn.mk "users" "email" none).table
        = (RemoveColumn.mk "users" "phone" none).table)
    ∧ ((RemoveColumn.mk "users" "email" none).column
          ≠ (RemoveColumn.mk "users" "phone" none).column
        → (RemoveColumn.mk "users" "email" none).trigger_name
          ≠ (RemoveColumn.mk "users" "phone" none).trigger_name) :=
  ⟨rfl, (trigger_name_deterministic_amended
    (RemoveColumn.mk "users" "email" none)
    (RemoveColumn.mk "users" "phone" none) rfl).2⟩

/-- C9: when `down` is present and the named table is absent from the
logical schema, `RemoveColumn::run` fails with `NotFound` having generated
no statement, and the store is untouched. -/
theorem removeColumn_run_notfound_atomic (a : RemoveColumn) (sc : Schema)
    (s : Store) (d : String) (hd : a.down = some d)
    (hf : sc.tables.find? (fun t => t.name == a.table) = none) :
    a.runStatements sc = .error SchemaError.NotFound ∧
    a.runStore sc s = (s, some (RunError.schemaErr SchemaError.NotFound)) := by
  have h1 : a.runStatements sc = .error SchemaError.NotFound := by
    unfold RemoveColumn.runStatements
    rw [hd]
    simp [Schema.find_table, hf]
  exact ⟨h1, by simp [RemoveColumn.runStore, h1]⟩

/-- C9 witness at concrete inputs: empty schema, non-empty store. -/
theorem removeColumn_run_notfound_atomic_witness :
    ((RemoveColumn.mk "users" "email" (some "0")).down = some "0")
    ∧ ((Schema.mk []).tables.find?
        (fun t => t.name == (RemoveColumn.mk "users" "email" (some "0")).table) = none)
    ∧ ((RemoveColumn.mk "users" "email" (some "0")).runStore (Schema.mk [])
          (Store.mk [("accounts", ["id"])] [] [])
        = (Store.mk [("accounts", ["id"])] [] [],
           some (RunError.schemaErr SchemaError.NotFound))) :=
  ⟨rfl, rfl,
    (removeColumn_run_notfound_atomic (RemoveColumn.mk "users" "email" (some "0"))
      (Schema.mk []) (Store.mk [("accounts", ["id"])] [] []) "0" rfl rfl).2⟩

/-- C10: when `down` is `None`, `RemoveColumn::run` generates no statement
and succeeds, leaving the store untouched, so no compensating trigger or
procedure is ever installed for the action. -/
theorem removeColumn_run_no_down_noop (a : RemoveColumn) (sc : Schema)
    (s : Store) (hd : a.down = none) :
    a.runStatements sc = .ok [] ∧ a.runStore sc s = (s, none) := by
  have h1 : a.runStatements sc = .ok [] := by
    unfold RemoveColumn.runStatements
    rw [hd]
  exact ⟨h1, by simp [RemoveColumn.runStore, h1, applyStmts]⟩

/-- C10 witness at concrete inputs. -/
theorem removeColumn_run_no_down_noop_witness :
    ((RemoveColumn.mk "users" "email" none).down = none)
    ∧ ((RemoveColumn.mk "users" "email" none).runStore
          (Schema.mk []) (Store.mk [("users", ["id", "email"])] [] [])
        = (Store.mk [("users", ["id", "email"])] [] [], none)) :=
  ⟨rfl,
    (removeColumn_run_no_down_noop (RemoveColumn.mk "users" "email" none)
      (Schema.mk []) (Store.mk [("users", ["id", "email"])] [] []) rfl).2⟩

/-- C1: `run` then `abort` restores the pre-run physical state —
`CreateTable` leaves no table of that name in the store, and `RemoveColumn`
leaves the column physically present with neither compensating trigger nor
procedure present. -/
theorem abort_restores_pre_run_state (ct : CreateTable) (rc : RemoveColumn)
    (sc : Schema) (s s2 : Store)
    (h : s2.columnExists rc.table rc.column = true) :
    (ct.abortStore (ct.runStore s).1).1.hasTable ct.name = false
    ∧ (rc.abortStore (rc.runStore sc s2).1).1.columnExists rc.table rc.column = true
    ∧ (rc.abortStore (rc.runStore sc s2).1).1.hasTrigger rc.trigger_name rc.table = false
    ∧ (rc.abortStore (rc.runStore sc s2).1).1.hasFunction rc.trigger_name = false := by
  refine ⟨?_, ?_, ?_, ?_⟩
  · simp only [CreateTable.abortStore, applyStmts, applyStmt, Store.hasTable]
    exact any_filter_fst_ne (fun p : String × List String => p.1) ct.name _
  · have ht : (rc.abortStore (rc.runStore sc s2).1).1.tables = s2.tables := by
      rw [rc.abortStore_eq]
      exact rc.runStore_tables sc s2
    unfold Store.columnExists at h ⊢
    rw [ht]
    exact h
  · rw [rc.abortStore_eq]
    exact contains_filter_ne _ _
  · rw [rc.abortStore_eq]
    exact contains_filter_ne _ _

/-- C1 witness at concrete inputs: a store where table users holds columns
id and email, a schema knowing that table, and both actions run then
aborted. -/
theorem abort_restores_pre_run_state_witness :
    ((Store.mk [("users", ["id", "email"])] [] []).columnExists "users" "email" = true)
    ∧ (((CreateTable.mk "accounts" [] ["id"] []).abortStore
          ((CreateTable.mk "accounts" [] ["id"] []).runStore
            (Store.mk [("users", ["id", "email"])] [] [])).1).1.hasTable "accounts" = false)
    ∧ (((RemoveColumn.mk "users" "email" (some "0")).abortStore
          ((RemoveColumn.mk "users" "email" (some "0")).runStore
            (Schema.mk [Table.mk "users" [] ["id"]])
            (Store.mk [("users", ["id", "email"])] [] [])).1).1.columnExists
          "users" "email" = true) :=
  ⟨by decide,
    (abort_restores_pre_run_state (CreateTable.mk "accounts" [] ["id"] [])
      (RemoveColumn.mk "users" "email" (some "0"))
      (Schema.mk [Table.mk "users" [] ["id"]])
      (Store.mk [("users", ["id", "email"])] [] [])
      (Store.mk [("users", ["id", "email"])] [] []) (by decide)).1,
    (abort_restores_pre_run_state (CreateTable.mk "accounts" [] ["id"] [])
      (RemoveColumn.mk "users" "email" (some "0"))
      (Schema.mk [Table.mk "users" [] ["id"]])
      (Store.mk [("users", ["id", "email"])] [] [])
      (Store.mk [("users", ["id", "email"])] [] []) (by decide)).2.1⟩

/-- C7: on a schema without a table of that name, `CreateTable::update_schema`
inserts a table whose columns are exactly the declared columns in order
(each with the declared name, data type and nullable flag, and no physical
name), whose primary key is the declared list; default values and foreign
keys do not reach the logical model. -/
theorem createTable_update_schema_inserts_logical_table (a : CreateTable)
    (sc : Schema)
    (h : sc.tables.any (fun t => t.name == a.name) = false) :
    a.update_schema sc = .ok (Schema.mk (sc.tables ++
      [Table.mk a.name
        (a.columns.map (fun c => Schema.Column.mk c.name none c.data_type c.nullable))
        a.primary_key])) := by
  simp only [CreateTable.update_schema, foldl_add_column]
  simp [Schema.add_table, Table.new, h]

/-- C7 witness: the spec scenario `CreateTable users [id integer not null]`
applied to the empty schema. -/
theorem createTable_update_schema_inserts_logical_table_witness :
    ((Schema.mk []).tables.any
        (fun t => t.name == (CreateTable.mk "users"
          [Column.mk "id" "integer" false none] ["id"] []).name) = false)
    ∧ ((CreateTable.mk "users" [Column.mk "id" "integer" false none] ["id"] []).update_schema
          (Schema.mk [])
        = .ok (Schema.mk [Table.mk "users"
            [Schema.Column.mk "id" none "integer" false] ["id"]])) :=
  ⟨rfl,
    createTable_update_schema_inserts_logical_table
      (CreateTable.mk "users" [Column.mk "id" "integer" false none] ["id"] [])
      (Schema.mk []) rfl⟩

/-- C3 counterexample: on a schema where table users exists but column email
does not, `RemoveColumn::update_schema` returns success with the schema
unchanged instead of failing with `NotFound` — the source discards the
result of `table.remove_column(..)`. -/
theorem removeColumn_update_schema_missing_column_cex :
    (RemoveColumn.mk "users" "email" none).update_schema
        (Schema.mk [Table.mk "users"
          [Schema.Column.mk "id" none "integer" false] ["id"]])
      = .ok (Schema.mk [Table.mk "users"
          [Schema.Column.mk "id" none "integer" false] ["id"]]) := by
  rfl

/-- C3 (amended): `RemoveColumn::update_schema` fails with `NotFound` when
the named table is absent from the logical schema; when the table exists but
the named column is absent from it, the call succeeds and leaves the schema
unchanged, because the `NotFound` returned by `remove_column` is discarded. -/
theorem removeColumn_update_schema_notfound_amended (a : RemoveColumn)
    (sc : Schema) (tbl : Table) :
    (sc.tables.find? (fun t => t.name == a.table) = none →
      a.update_schema sc = .error SchemaError.NotFound)
    ∧ (sc.tables.find? (fun t => t.name == a.table) = some tbl →
        tbl.columns.any (fun col => col.name == a.column) = false →
        a.update_schema sc = .ok sc) := by
  constructor
  · intro hf
    unfold RemoveColumn.update_schema
    rw [modifyTable_of_find?_none _ _ _ hf]
  · intro hf hcol
    unfold RemoveColumn.update_schema
    have hfix : (match tbl.remove_column a.column with
        | .ok t2 => t2
        | .error _ => tbl) = tbl := by
      unfold Table.remove_column
      rw [if_neg (by simp [hcol])]
    rw [modifyTable_of_fix _ _ _ tbl hf hfix]

/-- C3 witness: both amended branches at concrete inputs. -/
theorem removeColumn_update_schema_notfound_amended_witness :
    ((Schema.mk []).tables.find?
        (fun t => t.name == (RemoveColumn.mk "users" "id" none).table) = none)
    ∧ ((RemoveColumn.mk "users" "id" none).update_schema (Schema.mk [])
        = .error SchemaError.NotFound)
    ∧ ((RemoveColumn.mk "users" "phone" none).update_schema
          (Schema.mk [Table.mk "users" [Schema.Column.mk "id" none "integer" false] ["id"]])
        = .ok (Schema.mk [Table.mk "users"
            [Schema.Column.mk "id" none "integer" false] ["id"]])) :=
  ⟨rfl,
    (removeColumn_update_schema_notfound_amended
      (RemoveColumn.mk "users" "id" none) (Schema.mk [])
      (Table.mk "x" [] [])).1 rfl,
    (removeColumn_update_schema_notfound_amended
      (RemoveColumn.mk "users" "phone" none)
      (Schema.mk [Table.mk "users" [Schema.Column.mk "id" none "integer" false] ["id"]])
      (Table.mk "users" [Schema.Column.mk "id" none "integer" false] ["id"])).2
      rfl rfl⟩

/-- C4 counterexample: on a schema that already holds a table named users,
`CreateTable::update_schema` for users returns success with the schema
unchanged, not `SchemaError::Conflict` — the source discards the result of
`schema.add_table(..)`. -/
theorem createTable_update_schema_conflict_cex :
    (CreateTable.mk "users" [Column.mk "id" "integer" false none] ["id"] []).update_schema
        (Schema.mk [Table.mk "users" [] []])
      = .ok (Schema.mk [Table.mk "users" [] []]) := by
  rfl

/-- C4 (amended): when a table of the same name is already present,
`CreateTable::update_schema` returns success and leaves the schema
unchanged (the `Conflict` from `add_table` is discarded); otherwise it
inserts the new table. -/
theorem createTable_update_schema_conflict_amended (a : CreateTable)
    (sc : Schema) :
    (sc.tables.any (fun t => t.name == a.name) = true →
      a.update_schema sc = .ok sc)
    ∧ (sc.tables.any (fun t => t.name == a.name) = false →
        ∃ tbl : Table, tbl.name = a.name ∧
          a.update_schema sc = .ok (Schema.mk (sc.tables ++ [tbl]))) := by
  constructor
  · intro h
    simp only [CreateTable.update_schema, foldl_add_column]
    simp [Schema.add_table, Table.new, h]
  · intro h
    refine ⟨Table.mk a.name
      (a.columns.map (fun c => Schema.Column.mk c.name none c.data_type c.nullable))
      a.primary_key, rfl, ?_⟩
    simp only [CreateTable.update_schema, foldl_add_column]
    simp [Schema.add_table, Table.new, h]

/-- C4 witness: both amended branches at concrete inputs. -/
theorem createTable_update_schema_conflict_amended_witness :
    ((Schema.mk [Table.mk "users" [] []]).tables.any
        (fun t => t.name == (CreateTable.mk "users" [] [] []).name) = true)
    ∧ ((CreateTable.mk "users" [] [] []).update_schema
          (Schema.mk [Table.mk "users" [] []])
        = .ok (Schema.mk [Table.mk "users" [] []]))
    ∧ (∃ tbl : Table, tbl.name = "accounts" ∧
        (CreateTable.mk "accounts" [] [] []).update_schema (Schema.mk [])
          = .ok (Schema.mk ([] ++ [tbl]))) :=
  ⟨rfl,
    (createTable_update_schema_conflict_amended
      (CreateTable.mk "users" [] [] [])
      (Schema.mk [Table.mk "users" [] []])).1 rfl,
    (createTable_update_schema_conflict_amended
      (CreateTable.mk "accounts" [] [] []) (Schema.mk [])).2 rfl⟩

/-- C6: when `down` is present and the schema knows the table,
`RemoveColumn::run` is idempotent on the store — the second call returns the
same store with no error, and exactly one compensating trigger and one
compensating function are present after running. -/
theorem removeColumn_run_idempotent (a : RemoveColumn) (sc : Schema)
    (s : Store) (d : String) (tbl : Table)
    (hd : a.down = some d) (hf : sc.find_table a.table = .ok tbl)
    (hfn : s.functions.count a.trigger_name ≤ 1) :
    a.runStore sc (a.runStore sc s).1 = ((a.runStore sc s).1, none)
    ∧ (a.runStore sc s).2 = none
    ∧ (a.runStore sc s).1.triggerCount a.trigger_name a.table = 1
    ∧ (a.runStore sc s).1.functionCount a.trigger_name = 1 := by
  have h1 := a.runStore_ok sc s d tbl hd hf
  have hmem : ∀ l : List String,
      (if l.contains a.trigger_name then l else l ++ [a.trigger_name]).contains
        a.trigger_name = true := by
    intro l
    rcases hc : l.contains a.trigger_name with _ | _
    · simp only [hc, if_neg Bool.false_ne_true]
      refine List.elem_iff.mpr ?_
      exact List.mem_append_right _ (List.mem_singleton_self _)
    · simpa using hc
  have hnot : (a.trigger_name, a.table) ∉
      s.triggers.filter (fun p => p != (a.trigger_name, a.table)) := by
    intro hm
    have h2 := List.mem_filter.mp hm
    simp at h2
  refine ⟨?_, ?_, ?_, ?_⟩
  · have h2 := a.runStore_ok sc (a.runStore sc s).1 d tbl hd hf
    rw [h2, h1]
    simp only [Prod.mk.injEq, and_true]
    refine (Store.mk.injEq ..).mpr ⟨rfl, ?_, ?_⟩
    · rw [filter_ne_append_self]
    · by_cases hm : a.trigger_name ∈ s.functions <;> simp [hm]
  · rw [h1]
  · rw [h1]
    unfold Store.triggerCount
    rw [List.count_append, List.count_singleton_self,
      List.count_eq_zero_of_not_mem hnot]
  · rw [h1]
    unfold Store.functionCount
    rcases hc : s.functions.contains a.trigger_name with _ | _
    · simp only [hc, if_neg Bool.false_ne_true]
      have hnm : a.trigger_name ∉ s.functions := by simpa using hc
      rw [List.count_append, List.count_singleton_self,
        List.count_eq_zero_of_not_mem hnm]
    · simp only [hc, if_pos rfl]
      have hpos : 0 < s.functions.count a.trigger_name :=
        List.count_pos_iff.mpr (List.elem_iff.mp hc)
      exact Nat.le_antisymm hfn hpos

/-- C6 witness: the scenario of spec section 8 run twice from the empty
store. -/
theorem removeColumn_run_idempotent_witness :
    ((RemoveColumn.mk "users" "email" (some "0")).down = some "0")
    ∧ ((Schema.mk [Table.mk "users" [] ["id"]]).find_table "users"
        = .ok (Table.mk "users" [] ["id"]))
    ∧ ((Store.mk [] [] []).functions.count
        (RemoveColumn.mk "users" "email" (some "0")).trigger_name ≤ 1)
    ∧ ((RemoveColumn.mk "users" "email" (some "0")).runStore
          (Schema.mk [Table.mk "users" [] ["id"]])
          ((RemoveColumn.mk "users" "email" (some "0")).runStore
            (Schema.mk [Table.mk "users" [] ["id"]]) (Store.mk [] [] [])).1
        = (((RemoveColumn.mk "users" "email" (some "0")).runStore
            (Schema.mk [Table.mk "users" [] ["id"]]) (Store.mk [] [] [])).1, none)) :=
  ⟨rfl, rfl, by decide,
    (removeColumn_run_idempotent (RemoveColumn.mk "users" "email" (some "0"))
      (Schema.mk [Table.mk "users" [] ["id"]]) (Store.mk [] [] [])
      "0" (Table.mk "users" [] ["id"]) rfl rfl (by decide)).1⟩

/-- C5 counterexample: `RemoveColumn::complete` is not idempotent — the
first call on a store with column email succeeds, but repeating it fails
with an `ExecutionError`, because the batch starts with
`ALTER TABLE users DROP COLUMN email` without `IF EXISTS` and the column is
already gone; the store is left unchanged by the failed repeat. -/
theorem removeColumn_complete_not_idempotent_cex :
    ((RemoveColumn.mk "users" "email" (some "0")).completeStore
        (Store.mk [("users", ["id", "email"])] [] [])).2 = none
    ∧ (RemoveColumn.mk "users" "email" (some "0")).completeStore
        ((RemoveColumn.mk "users" "email" (some "0")).completeStore
          (Store.mk [("users", ["id", "email"])] [] [])).1
      = (((RemoveColumn.mk "users" "email" (some "0")).completeStore
          (Store.mk [("users", ["id", "email"])] [] [])).1,
         some RunError.execution) :=
  ⟨rfl, rfl⟩

/-- C5 (amended): after `RemoveColumn::complete` on a store whose table
holds the column, the column and both compensating objects are absent,
regardless of how many times `run` was called beforehand; but `complete` is
not idempotent — repeating it fails with an `ExecutionError` at the
`ALTER TABLE .. DROP COLUMN` statement, leaving the state unchanged. -/
theorem removeColumn_complete_terminal_amended (a : RemoveColumn)
    (sc : Schema) (s : Store) (n : Nat) (cols : List String)
    (hfind : s.tables.find? (fun p => p.1 == a.table) = some (a.table, cols))
    (hc : cols.contains a.column = true) :
    (a.completeStore (a.iterateRun sc n s)).2 = none
    ∧ (a.completeStore (a.iterateRun sc n s)).1.columnExists a.table a.column = false
    ∧ (a.completeStore (a.iterateRun sc n s)).1.hasTrigger a.trigger_name a.table = false
    ∧ (a.completeStore (a.iterateRun sc n s)).1.hasFunction a.trigger_name = false
    ∧ a.completeStore (a.completeStore (a.iterateRun sc n s)).1
        = ((a.completeStore (a.iterateRun sc n s)).1, some RunError.execution) := by
  have htab : (a.iterateRun sc n s).tables = s.tables := a.iterateRun_tables sc n s
  have hfind2 : (a.iterateRun sc n s).tables.find? (fun p => p.1 == a.table)
      = some (a.table, cols) := by
    rw [htab]
    exact hfind
  have hcomp := a.completeStore_ok (a.iterateRun sc n s) cols hfind2 hc
  refine ⟨?_, ?_, ?_, ?_, ?_⟩
  · rw [hcomp]
  · simp only [hcomp]
    unfold Store.columnExists
    rw [htab]
    exact columnExists_dropColumn s.tables a.table a.column
  · simp only [hcomp]
    exact contains_filter_ne _ _
  · simp only [hcomp]
    exact contains_filter_ne _ _
  · have hfind3 : ((a.completeStore (a.iterateRun sc n s)).1).tables.find?
        (fun p => p.1 == a.table)
        = some (a.table, cols.filter (fun c2 => c2 != a.column)) := by
      rw [hcomp]
      exact find?_dropColumn _ a.table a.column cols hfind2
    exact a.completeStore_absent _ _ hfind3 (contains_filter_ne cols a.column)

/-- C5 witness: the amended theorem at concrete inputs with two prior runs. -/
theorem removeColumn_complete_terminal_amended_witness :
    ((Store.mk [("users", ["id", "email"])] [] []).tables.find?
        (fun p => p.1 == (RemoveColumn.mk "users" "email" (some "0")).table)
      = some ("users", ["id", "email"]))
    ∧ (["id", "email"].contains
        (RemoveColumn.mk "users" "email" (some "0")).column = true)
    ∧ (((RemoveColumn.mk "users" "email" (some "0")).completeStore
        ((RemoveColumn.mk "users" "email" (some "0")).iterateRun
          (Schema.mk [Table.mk "users" [] ["id"]]) 2
          (Store.mk [("users", ["id", "email"])] [] []))).2 = none)
    ∧ (((RemoveColumn.mk "users" "email" (some "0")).completeStore
        ((RemoveColumn.mk "users" "email" (some "0")).iterateRun
          (Schema.mk [Table.mk "users" [] ["id"]]) 2
          (Store.mk [("users", ["id", "email"])] [] []))).1.hasTrigger
        (RemoveColumn.mk "users" "email" (some "0")).trigger_name "users" = false) :=
  ⟨rfl, rfl,
    (removeColumn_complete_terminal_amended (RemoveColumn.mk "users" "email" (some "0"))
      (Schema.mk [Table.mk "users" [] ["id"]])
      (Store.mk [("users", ["id", "email"])] [] []) 2 ["id", "email"] rfl rfl).1,
    (removeColumn_complete_terminal_amended (RemoveColumn.mk "users" "email" (some "0"))
      (Schema.mk [Table.mk "users" [] ["id"]])
      (Store.mk [("users", ["id", "email"])] [] []) 2 ["id", "email"] rfl rfl).2.2.1⟩
